import Mathlib

/-! Verification of the HTTP/3 request/response correlation layer of this
repository (Http3/client.py and Http3/server.py), shallowly embedded in Lean.

Bytes are modelled as Nat values, byte strings as List Nat, and Python str
values as Lean String; both Python len on str and Lean String.length count
unicode code points, and Python bytes-encoding corresponds to UTF-8 byte
sequences. The aioquic H3 events HeadersReceived and DataReceived are the
inputs of the event handlers; calls to send_headers and send_data are the
observable outputs of the server. Python dictionaries keyed by stream id
are modelled as functions from Nat to Option. -/

namespace Http3

/-- H3 events handed to quic_event_received by H3Connection.handle_event.
Header names and values are modelled as strings; the repository compares
them against fixed constants only. -/
inductive H3Event where
  | headersReceived (stream_id : Nat) (headers : List (String × String)) (stream_ended : Bool)
  | dataReceived (stream_id : Nat) (data : List Nat) (stream_ended : Bool)
deriving DecidableEq

/-- Python dict(pairs).get(key, default): building a dict from a pair list
keeps the last binding of each key, so lookup finds the last occurrence. -/
def dictGet (l : List (String × String)) (key dft : String) : String :=
  match l.reverse.find? (fun p => p.1 == key) with
  | some p => p.2
  | none => dft

/-- Pointwise update of a Python-dict-as-function at one key. -/
def upd {α : Type} (f : Nat → Option α) (k : Nat) (v : α) : Nat → Option α :=
  fun k' => if k' = k then some v else f k'

/-- One entry of HttpClient._request_events (client.py line 33): the record
holding headers set to None initially and a byte accumulator. Python stores
dict(event.headers); the header pair list itself is kept here, with dict
lookup modelled by dictGet where needed. -/
structure RequestEntry where
  headers : Option (List (String × String))
  data : List Nat
deriving DecidableEq

/-- An asyncio future as used by HttpClient._request_waiter: done becomes
true on set_result (result set) or on cancellation (result stays none),
and never reverts. -/
structure Waiter where
  done : Bool
  result : Option RequestEntry
deriving DecidableEq

/-- The mutable state of HttpClient: _request_events and _request_waiter,
both Python dicts keyed by stream id. -/
structure ClientState where
  request_events : Nat → Option RequestEntry
  request_waiter : Nat → Option Waiter

namespace Client

/-- Fresh HttpClient state: both dicts empty (client.py lines 16-17). -/
def init : ClientState :=
  { request_events := fun _ => none, request_waiter := fun _ => none }

/-- The registration step of HttpClient.get (client.py lines 32-34): a new
pending waiter and an empty entry for the stream. The request headers are
sent with end_stream true and transmit is called; client outbound frames
are not needed by any claim and are not modelled. -/
def registerGet (st : ClientState) (sid : Nat) : ClientState :=
  { request_events := upd st.request_events sid { headers := none, data := [] },
    request_waiter := upd st.request_waiter sid { done := false, result := none } }

/-- HttpClient.quic_event_received (client.py lines 40-56), processing one
H3 event produced by H3Connection.handle_event. A HeadersReceived event
creates the entry if absent and stores the headers; a DataReceived event
creates the entry if absent, appends the payload, and, when stream_ended
is true and a not-yet-done waiter is registered for the stream, resolves
that waiter with the current entry (set_result). -/
def quic_event_received (st : ClientState) (e : H3Event) : ClientState :=
  match e with
  | .headersReceived stream_id hs _ =>
      let ev := (st.request_events stream_id).getD { headers := none, data := [] }
      let evh : RequestEntry := { ev with headers := some hs }
      { st with request_events := upd st.request_events stream_id evh }
  | .dataReceived stream_id d stream_ended =>
      let ev := (st.request_events stream_id).getD { headers := none, data := [] }
      let ev' : RequestEntry := { ev with data := ev.data ++ d }
      let st1 : ClientState := { st with request_events := upd st.request_events stream_id ev' }
      if stream_ended then
        match st1.request_waiter stream_id with
        | some w =>
            if w.done then st1
            else
              let w' : Waiter := { done := true, result := some ev' }
              { st1 with request_waiter := upd st1.request_waiter stream_id w' }
        | none => st1
      else st1

/-- Processing a whole sequence of delivered H3 events, in delivery order. -/
def run (events : List H3Event) (st : ClientState) : ClientState :=
  events.foldl quic_event_received st

/-- The body accumulated so far for a stream (empty if no entry exists). -/
def bodyOf (st : ClientState) (sid : Nat) : List Nat :=
  ((st.request_events sid).getD { headers := none, data := [] }).data

/-- The data payload an event contributes to the body of stream sid. -/
def fragOf (sid : Nat) : H3Event → List Nat
  | .dataReceived s d _ => if s = sid then d else []
  | .headersReceived _ _ _ => []

/-- Concatenation, in delivery order, of exactly the DataReceived payloads
carrying stream id sid. -/
def fragsFor (sid : Nat) (events : List H3Event) : List Nat :=
  (events.map (fragOf sid)).flatten

/-- The guard of the set_result call in quic_event_received (client.py
lines 54-55) at one event: true exactly when the event is a DataReceived
for sid carrying stream_ended true while a not-yet-done waiter is
registered for sid. -/
def didResolve (st : ClientState) (e : H3Event) (sid : Nat) : Bool :=
  match e with
  | .dataReceived s _ se =>
      s == sid && se &&
        (match st.request_waiter s with
         | some w => !w.done
         | none => false)
  | .headersReceived _ _ _ => false

/-- How many times an event sequence resolves (set_result) the waiter of
stream sid, starting from state st. -/
def resolveCount : List H3Event → ClientState → Nat → Nat
  | [], _, _ => 0
  | e :: rest, st, sid =>
      (if didResolve st e sid then 1 else 0) + resolveCount rest (quic_event_received st e) sid

/-- Whether the waiter registered for sid reports done. -/
def waiterDone (st : ClientState) (sid : Nat) : Bool :=
  match st.request_waiter sid with
  | some w => w.done
  | none => false

/-- The timeout budget of HttpClient.get: asyncio.wait_for(waiter, 5.0),
in seconds. -/
def timeoutBudget : Nat := 5

/-- Models the timeout arm of asyncio.wait_for: when the budget elapses,
the still-pending future of the awaited stream is cancelled (done, no
result) and get raises TimeoutError. The code removes no entry from
either dict on this path. -/
def timeoutCancel (st : ClientState) (sid : Nat) : ClientState :=
  match st.request_waiter sid with
  | some w =>
      if w.done then st
      else
        let w' : Waiter := { done := true, result := w.result }
        { st with request_waiter := upd st.request_waiter sid w' }
  | none => st

/-- Outcome of await asyncio.wait_for(waiter, 5.0) once the events that
arrived within the window have been processed: the resolved entry when
set_result ran, and TimeoutError (RequestTimeout) otherwise. -/
inductive GetResult where
  | ok (r : RequestEntry)
  | requestTimeout
deriving DecidableEq

/-- Reads off the awaited future: resolved means done with a result. -/
def awaitOutcome (st : ClientState) (sid : Nat) : GetResult :=
  match st.request_waiter sid with
  | some w =>
      match w.result with
      | some r => if w.done then GetResult.ok r else GetResult.requestTimeout
      | none => GetResult.requestTimeout
  | none => GetResult.requestTimeout

/-- Whether an event signals end-of-stream for stream sid. -/
def endsStreamFor (sid : Nat) : H3Event → Bool
  | .headersReceived s _ se => s == sid && se
  | .dataReceived s _ se => s == sid && se

end Client

/-- JSON values as passed to json.dumps by the server handlers. -/
inductive Json where
  | str (s : String)
  | num (n : Int)
  | arr (elems : List Json)
  | obj (fields : List (String × Json))

/-- Field lookup in a JSON object (the deserialized view of a body). -/
def Json.lookup : Json → String → Option Json
  | .obj fields, key => (fields.find? (fun p => p.1 == key)).map (fun p => p.2)
  | _, _ => none

/-- Escaping of a character inside a JSON string literal, as json.dumps
performs it for the characters that occur in this repository's payloads. -/
def escapeJsonChar (c : Char) : String :=
  if c = '"' then "\\\""
  else if c = '\\' then "\\\\"
  else if c = '\n' then "\\n"
  else if c = '\r' then "\\r"
  else if c = '\t' then "\\t"
  else String.singleton c

def escapeJson (s : String) : String :=
  String.join (s.data.map escapeJsonChar)

def jsonSpaces (n : Nat) : String :=
  String.mk (List.replicate n ' ')

mutual

/-- json.dumps(value, indent=2) rendered at nesting indentation ind. -/
def dumpsVal : Nat → Json → String
  | _, .str s => "\"" ++ escapeJson s ++ "\""
  | _, .num n => toString n
  | _, .arr [] => "[]"
  | ind, .arr (x :: xs) =>
      "[\n" ++ dumpsElems (ind + 2) x xs ++ "\n" ++ jsonSpaces ind ++ "]"
  | _, .obj [] => "\x7b\x7d"
  | ind, .obj (f :: fs) =>
      "\x7b\n" ++ dumpsFields (ind + 2) f fs ++ "\n" ++ jsonSpaces ind ++ "\x7d"
termination_by ind j => sizeOf j
decreasing_by all_goals (simp_wf <;> omega)

def dumpsElems : Nat → Json → List Json → String
  | ind, x, [] => jsonSpaces ind ++ dumpsVal ind x
  | ind, x, y :: ys => jsonSpaces ind ++ dumpsVal ind x ++ ",\n" ++ dumpsElems ind y ys
termination_by ind x xs => 1 + sizeOf x + sizeOf xs
decreasing_by all_goals (simp_wf <;> omega)

def dumpsFields : Nat → (String × Json) → List (String × Json) → String
  | ind, (k, v), [] => jsonSpaces ind ++ "\"" ++ escapeJson k ++ "\": " ++ dumpsVal ind v
  | ind, (k, v), g :: gs =>
      jsonSpaces ind ++ "\"" ++ escapeJson k ++ "\": " ++ dumpsVal ind v ++ ",\n" ++
        dumpsFields ind g gs
termination_by ind f fs => 1 + sizeOf f + sizeOf fs
decreasing_by all_goals (simp_wf <;> omega)

end

/-- json.dumps(data, indent=2) as called by send_json_response. -/
def dumps (data : Json) : String := dumpsVal 0 data

/-- UTF-8 encoding of one character, as Python str.encode produces it. -/
def utf8Bytes (c : Char) : List Nat :=
  let n := c.toNat
  if n < 128 then [n]
  else if n < 2048 then [192 + n / 64, 128 + n % 64]
  else if n < 65536 then [224 + n / 4096, 128 + (n / 64) % 64, 128 + n % 64]
  else [240 + n / 262144, 128 + (n / 4096) % 64, 128 + (n / 64) % 64, 128 + n % 64]

/-- Python body.encode(): the UTF-8 bytes of a string. -/
def encodeUtf8 (s : String) : List Nat :=
  (s.data.map utf8Bytes).flatten

/-- Observable outputs of the server: the H3Connection.send_headers and
send_data calls issued by send_response (the transmit flush carries no
data of its own and is not modelled; no claim depends on it). -/
inductive Send where
  | headers (stream_id : Nat) (headers : List (String × String)) (end_stream : Bool)
  | data (stream_id : Nat) (data : List Nat) (end_stream : Bool)
deriving DecidableEq

namespace Server

/-- HttpServerProtocol.get_homepage (server.py lines 95-126), verbatim. -/
def get_homepage : String :=
  "<!DOCTYPE html>\n<html>\n<head>\n    <title>HTTP/3 Server</title>\n    <style>\n        body \x7b font-family: Arial, sans-serif; max-width: 800px; margin: 50px auto; padding: 20px; background: #f5f5f5; \x7d\n        h1 \x7b color: #333; \x7d\n        .info \x7b background: white; padding: 20px; border-radius: 8px; box-shadow: 0 2px 4px rgba(0,0,0,0.1); margin: 20px 0; \x7d\n        .protocol \x7b color: #4CAF50; font-weight: bold; font-size: 1.2em; \x7d\n        .endpoint \x7b background: #fff; padding: 15px; margin: 10px 0; border-left: 4px solid #4CAF50; border-radius: 4px; \x7d\n        .endpoint strong \x7b color: #2196F3; \x7d\n    </style>\n</head>\n<body>\n    <h1>🚀 HTTP/3 Server Running on Kali Linux</h1>\n    <div class=\"info\">\n        <p>Protocol: <span class=\"protocol\">HTTP/3 (QUIC)</span></p>\n        <p>Port: 4433</p>\n        <p>Status: ✅ Active and Ready</p>\n    </div>\n    <h2>📡 Available Endpoints:</h2>\n    <div class=\"endpoint\">\n        <strong>GET /api/status</strong><br>\n        Returns server health status and timestamp\n    </div>\n    <div class=\"endpoint\">\n        <strong>GET /api/data</strong><br>\n        Returns sample JSON data\n    </div>\n</body>\n</html>"

/-- HttpServerProtocol.send_response (server.py lines 76-89): the emitted
headers are the :status pseudo-header, content-type, content-length
computed as str(len(body)) on the Python str (its code-point count), and
a fixed server identifier; then the UTF-8 bytes of the body are sent with
end_stream true. send_headers leaves end_stream at its default, false. -/
def send_response (stream_id status_code : Nat) (body : String) (content_type : String) :
    List Send :=
  [ Send.headers stream_id
      [(":status", toString status_code),
       ("content-type", content_type),
       ("content-length", toString body.length),
       ("server", "HTTP/3-Python-Server")] false,
    Send.data stream_id (encodeUtf8 body) true ]

/-- HttpServerProtocol.send_json_response (server.py lines 91-93). -/
def send_json_response (stream_id status_code : Nat) (data : Json) : List Send :=
  send_response stream_id status_code (dumps data) "application/json"

/-- The JSON body served for /api/status; the timestamp argument stands
for datetime.now().isoformat(). -/
def statusBody (ts : String) : Json :=
  Json.obj [("status", Json.str "healthy"), ("protocol", Json.str "HTTP/3"),
            ("timestamp", Json.str ts)]

/-- The JSON body served for /api/data (server.py lines 52-60). -/
def dataBody : Json :=
  Json.obj [("message", Json.str "Sample data from HTTP/3 server"),
            ("items", Json.arr
              [Json.obj [("id", Json.num 1), ("name", Json.str "Item 1"), ("value", Json.num 100)],
               Json.obj [("id", Json.num 2), ("name", Json.str "Item 2"), ("value", Json.num 200)],
               Json.obj [("id", Json.num 3), ("name", Json.str "Item 3"), ("value", Json.num 300)]])]

/-- The 404 JSON body (server.py lines 62-65). -/
def notFoundBody (path : String) : Json :=
  Json.obj [("error", Json.str "Not Found"), ("path", Json.str path)]

/-- The 500 JSON body of the except branch (server.py lines 69-72). -/
def errorBody (msg : String) : Json :=
  Json.obj [("error", Json.str "Internal Server Error"), ("message", Json.str msg)]

/-- HttpServerProtocol.handle_request (server.py lines 36-74). The try
block around routing is modelled by the exn parameter: none means the try
body ran to completion, some msg means an exception with text msg was
raised inside it, in which case the except branch answers 500 with the
diagnostic JSON body. headers.get defaults give "/" for a missing :path
and "GET" for a missing :method; the method is only logged and does not
affect routing. -/
def handle_request (ts : String) (exn : Option String) (stream_id : Nat)
    (hdrs : List (String × String)) : List Send :=
  match exn with
  | some e => send_json_response stream_id 500 (errorBody e)
  | none =>
      let path := dictGet hdrs ":path" "/"
      if path = "/" then send_response stream_id 200 get_homepage "text/html"
      else if path = "/api/status" then send_json_response stream_id 200 (statusBody ts)
      else if path = "/api/data" then send_json_response stream_id 200 dataBody
      else send_json_response stream_id 404 (notFoundBody path)

/-- HttpServerProtocol.quic_event_received (server.py lines 26-34) on one
H3 event: a HeadersReceived event dispatches handle_request immediately,
a DataReceived event is dropped (the pass branch). Each event carries its
exception annotation for the handle_request try block. -/
def processEvent (ts : String) (p : Option String × H3Event) : List Send :=
  match p.2 with
  | .headersReceived stream_id hs _ => handle_request ts p.1 stream_id hs
  | .dataReceived _ _ _ => []

/-- All frames the server sends while processing a trace of events. -/
def run (ts : String) (trace : List (Option String × H3Event)) : List Send :=
  (trace.map (processEvent ts)).flatten

/-- The :status header value of the first frame of a send list. -/
def sentStatus (sends : List Send) : Option String :=
  match sends with
  | Send.headers _ hs _ :: _ => (hs.find? (fun p => p.1 == ":status")).map (fun p => p.2)
  | _ => none

/-- The content-type header value of the first frame of a send list. -/
def sentContentType (sends : List Send) : Option String :=
  match sends with
  | Send.headers _ hs _ :: _ => (hs.find? (fun p => p.1 == "content-type")).map (fun p => p.2)
  | _ => none

/-- The content-length header value of the first frame of a send list. -/
def sentContentLength (sends : List Send) : Option String :=
  match sends with
  | Send.headers _ hs _ :: _ => (hs.find? (fun p => p.1 == "content-length")).map (fun p => p.2)
  | _ => none

/-- The bytes actually transmitted as response body in a send list. -/
def sentBodyBytes (sends : List Send) : List Nat :=
  (sends.map (fun f => match f with | Send.data _ d _ => d | _ => [])).flatten

/-- Whether a frame starts a response on stream sid (a headers frame). -/
def isResponseHeaders (sid : Nat) : Send → Bool
  | Send.headers s _ _ => s == sid
  | Send.data _ _ _ => false

/-- Number of responses dispatched for stream sid, observed as the number
of headers frames the server sends on that stream. -/
def dispatchCount (ts : String) (trace : List (Option String × H3Event)) (sid : Nat) : Nat :=
  (run ts trace).countP (isResponseHeaders sid)

/-- Number of HeadersReceived events carrying stream id sid in a trace. -/
def headersEventCount (trace : List (Option String × H3Event)) (sid : Nat) : Nat :=
  trace.countP (fun p => match p.2 with
    | H3Event.headersReceived s _ _ => s == sid
    | H3Event.dataReceived _ _ _ => false)

end Server

theorem upd_self {α : Type} (f : Nat → Option α) (k : Nat) (v : α) : upd f k v k = some v := by
  simp [upd]

theorem upd_other {α : Type} (f : Nat → Option α) (k k' : Nat) (v : α) (h : k' ≠ k) :
    upd f k v k' = f k' := by
  simp [upd, h]

theorem run_cons (e : H3Event) (rest : List H3Event) (st : ClientState) :
    Client.run (e :: rest) st = Client.run rest (Client.quic_event_received st e) := rfl

theorem request_events_headers (st : ClientState) (s : Nat) (hs : List (String × String))
    (se : Bool) :
    (Client.quic_event_received st (H3Event.headersReceived s hs se)).request_events =
      upd st.request_events s
        { (st.request_events s).getD { headers := none, data := [] } with headers := some hs } :=
  rfl

theorem request_waiter_headers (st : ClientState) (s : Nat) (hs : List (String × String))
    (se : Bool) :
    (Client.quic_event_received st (H3Event.headersReceived s hs se)).request_waiter =
      st.request_waiter :=
  rfl

theorem request_events_data (st : ClientState) (s : Nat) (d : List Nat) (se : Bool) :
    (Client.quic_event_received st (H3Event.dataReceived s d se)).request_events =
      upd st.request_events s
        { (st.request_events s).getD { headers := none, data := [] } with
          data := ((st.request_events s).getD { headers := none, data := [] }).data ++ d } := by
  cases se with
  | false => rfl
  | true =>
      simp only [Client.quic_event_received]
      cases h : st.request_waiter s with
      | none => simp [h]
      | some w => cases hw : w.done <;> simp [h, hw]

theorem body_step (st : ClientState) (e : H3Event) (sid : Nat) :
    Client.bodyOf (Client.quic_event_received st e) sid =
      Client.bodyOf st sid ++ Client.fragOf sid e := by
  cases e with
  | headersReceived s hs se =>
      simp only [Client.bodyOf, request_events_headers, Client.fragOf, upd]
      by_cases h : sid = s
      · subst h; simp
      · rw [if_neg h, List.append_nil]
  | dataReceived s d se =>
      simp only [Client.bodyOf, request_events_data, Client.fragOf, upd]
      by_cases h : sid = s
      · subst h; simp
      · rw [if_neg h, if_neg (fun hh => h hh.symm), List.append_nil]

theorem body_run (events : List H3Event) (st : ClientState) (sid : Nat) :
    Client.bodyOf (Client.run events st) sid =
      Client.bodyOf st sid ++ Client.fragsFor sid events := by
  induction events generalizing st with
  | nil => simp [Client.run, Client.fragsFor]
  | cons e rest ih =>
      rw [run_cons, ih, body_step]
      simp [Client.fragsFor, List.append_assoc]

/-- C3: for every sequence of interleaved HeadersReceived and DataReceived
events over any stream ids processed by the client event handler, the
accumulated body (the data field) of each stream id equals the
concatenation, in delivery order, of exactly the DataReceived payloads
carrying that stream id; hence no fragment of one stream ever appears in
another stream body. -/
theorem C3_cross_stream_isolation (events : List H3Event) (sid : Nat) :
    Client.bodyOf (Client.run events Client.init) sid = Client.fragsFor sid events := by
  have h := body_run events Client.init sid
  simpa [Client.bodyOf, Client.init] using h

theorem waiter_step (st : ClientState) (e : H3Event) (sid : Nat) :
    (Client.quic_event_received st e).request_waiter sid = st.request_waiter sid ∨
    ∃ w r, st.request_waiter sid = some w ∧ w.done = false ∧
      (Client.quic_event_received st e).request_waiter sid =
        some { done := true, result := some r } := by
  cases e with
  | headersReceived s hs se => exact Or.inl rfl
  | dataReceived s d se =>
      cases se with
      | false => exact Or.inl rfl
      | true =>
          simp only [Client.quic_event_received]
          cases h : st.request_waiter s with
          | none => left; simp [h]
          | some w =>
              cases hw : w.done with
              | true => left; simp [h, hw]
              | false =>
                  by_cases hsid : sid = s
                  · subst hsid
                    right
                    refine ⟨w, { (st.request_events sid).getD { headers := none, data := [] } with
                        data := ((st.request_events sid).getD
                          { headers := none, data := [] }).data ++ d }, h, hw, ?_⟩
                    simp [h, hw, upd]
                  · left; simp [h, hw, upd, hsid]

theorem waiter_isSome_step (st : ClientState) (e : H3Event) (sid : Nat)
    (h : (st.request_waiter sid).isSome = true) :
    ((Client.quic_event_received st e).request_waiter sid).isSome = true := by
  rcases waiter_step st e sid with heq | ⟨w, r, hw, hd, heq⟩
  · rw [heq]; exact h
  · rw [heq]; rfl

theorem waiter_isSome_run (events : List H3Event) (st : ClientState) (sid : Nat)
    (h : (st.request_waiter sid).isSome = true) :
    ((Client.run events st).request_waiter sid).isSome = true := by
  induction events generalizing st with
  | nil => exact h
  | cons e rest ih => rw [run_cons]; exact ih _ (waiter_isSome_step st e sid h)

theorem waiterDone_step (st : ClientState) (e : H3Event) (sid : Nat)
    (h : Client.waiterDone st sid = true) :
    Client.waiterDone (Client.quic_event_received st e) sid = true := by
  rcases waiter_step st e sid with heq | ⟨w, r, hw, hd, heq⟩
  · unfold Client.waiterDone at h ⊢; rw [heq]; exact h
  · unfold Client.waiterDone; rw [heq]

theorem didResolve_false_of_done (st : ClientState) (e : H3Event) (sid : Nat)
    (h : Client.waiterDone st sid = true) : Client.didResolve st e sid = false := by
  cases e with
  | headersReceived _ _ _ => rfl
  | dataReceived s d se =>
      simp only [Client.didResolve]
      by_cases hs : s = sid
      · subst hs
        unfold Client.waiterDone at h
        cases hw : st.request_waiter s with
        | none => rw [hw] at h; exact absurd h (by simp)
        | some w =>
            rw [hw] at h
            have hd : w.done = true := by simpa using h
            simp [hw, hd]
      · simp [hs]

theorem didResolve_done (st : ClientState) (e : H3Event) (sid : Nat)
    (h : Client.didResolve st e sid = true) :
    Client.waiterDone (Client.quic_event_received st e) sid = true := by
  cases e with
  | headersReceived _ _ _ => exact absurd h (by simp [Client.didResolve])
  | dataReceived s d se =>
      simp only [Client.didResolve, Bool.and_eq_true, beq_iff_eq] at h
      obtain ⟨⟨hs, hse⟩, hw⟩ := h
      subst hs hse
      cases hwt : st.request_waiter s with
      | none => rw [hwt] at hw; exact absurd hw (by simp)
      | some w =>
          rw [hwt] at hw
          have hd : w.done = false := by simpa using hw
          simp [Client.quic_event_received, Client.waiterDone, hwt, hd, upd]

theorem resolveCount_zero_of_done (events : List H3Event) (st : ClientState) (sid : Nat)
    (h : Client.waiterDone st sid = true) : Client.resolveCount events st sid = 0 := by
  induction events generalizing st with
  | nil => rfl
  | cons e rest ih =>
      simp only [Client.resolveCount]
      rw [didResolve_false_of_done st e sid h]
      simpa using ih _ (waiterDone_step st e sid h)

theorem resolveCount_le_one (events : List H3Event) (st : ClientState) (sid : Nat) :
    Client.resolveCount events st sid ≤ 1 := by
  induction events generalizing st with
  | nil => exact Nat.zero_le 1
  | cons e rest ih =>
      simp only [Client.resolveCount]
      by_cases h : Client.didResolve st e sid = true
      · rw [if_pos h, resolveCount_zero_of_done _ _ _ (didResolve_done st e sid h)]
      · rw [if_neg h]; simpa using ih (Client.quic_event_received st e)

theorem run_append (ts : String) (t1 t2 : List (Option String × H3Event)) :
    Server.run ts (t1 ++ t2) = Server.run ts t1 ++ Server.run ts t2 := by
  simp [Server.run]

theorem countP_send_response (sid stream_id status : Nat) (body ct : String) :
    (Server.send_response stream_id status body ct).countP (Server.isResponseHeaders sid) =
      if stream_id = sid then 1 else 0 := by
  by_cases h : stream_id = sid <;>
    simp [Server.send_response, Server.isResponseHeaders, List.countP_cons, h]

theorem countP_handle_request (ts : String) (exn : Option String) (s sid : Nat)
    (hdrs : List (String × String)) :
    (Server.handle_request ts exn s hdrs).countP (Server.isResponseHeaders sid) =
      if s = sid then 1 else 0 := by
  cases exn with
  | some e => exact countP_send_response sid s 500 (dumps (Server.errorBody e)) "application/json"
  | none =>
      simp only [Server.handle_request, Server.send_json_response]
      split_ifs <;> rw [countP_send_response] <;> simp_all

theorem dispatchCount_eq_headersEventCount (ts : String)
    (trace : List (Option String × H3Event)) (sid : Nat) :
    Server.dispatchCount ts trace sid = Server.headersEventCount trace sid := by
  induction trace with
  | nil => rfl
  | cons p rest ih =>
      have hall : Server.dispatchCount ts (p :: rest) sid =
          (Server.processEvent ts p).countP (Server.isResponseHeaders sid) +
            Server.dispatchCount ts rest sid := by
        simp [Server.dispatchCount, Server.run, List.countP_append]
      rw [hall, ih]
      rcases p with ⟨exn, e⟩
      cases e with
      | headersReceived s hs se =>
          simp only [Server.processEvent, Server.headersEventCount, List.countP_cons]
          rw [countP_handle_request]
          by_cases h : s = sid <;> simp [Server.headersEventCount, h, Nat.add_comm]
      | dataReceived s d se =>
          simp [Server.processEvent, Server.headersEventCount, List.countP_cons]

/-- C2 counterexample: a trace in which two HeadersReceived events, both
carrying stream_ended true, arrive for stream 0 makes the server dispatch
two responses on stream 0 (handle_request runs once per HeadersReceived
event, with no duplicate-dispatch guard), refuting the claim that the
server dispatches at most once whenever two ended events arrive for the
same stream. -/
theorem C2_counterexample :
    Server.dispatchCount "2025-01-01T00:00:00"
        [(none, H3Event.headersReceived 0 [(":path", "/api/status")] true),
         (none, H3Event.headersReceived 0 [(":path", "/api/status")] true)] 0 = 2 := by
  decide

/-- C2 amended: the client resolves a stream waiter at most once for every
event sequence (the done check on the future guards set_result); the
server dispatches one response per HeadersReceived event, so traces with
at most one HeadersReceived for a stream produce at most one dispatch for
it (duplicate end-of-stream signals on DataReceived events never dispatch
twice), but duplicate HeadersReceived events each trigger a dispatch. -/
theorem C2_amended_single_resolution (events : List H3Event) (st : ClientState) (sid : Nat)
    (ts : String) (trace : List (Option String × H3Event)) :
    Client.resolveCount events st sid ≤ 1
    ∧ (Server.headersEventCount trace sid ≤ 1 → Server.dispatchCount ts trace sid ≤ 1) := by
  refine ⟨resolveCount_le_one events st sid, fun h => ?_⟩
  rw [dispatchCount_eq_headersEventCount]
  exact h

/-- Witness for C2 amended: a trace with two DataReceived ended events for
stream 0 resolves the client waiter at most once and dispatches at most
one server response. -/
theorem C2_amended_single_resolution_witness :
    Client.resolveCount [H3Event.dataReceived 0 [1] true, H3Event.dataReceived 0 [2] true]
        (Client.registerGet Client.init 0) 0 ≤ 1
    ∧ Server.headersEventCount
        [(none, H3Event.dataReceived 0 [1] true), (none, H3Event.dataReceived 0 [2] true)] 0 ≤ 1
    ∧ Server.dispatchCount "2025-01-01T00:00:00"
        [(none, H3Event.dataReceived 0 [1] true), (none, H3Event.dataReceived 0 [2] true)] 0
        ≤ 1 := by
  have h := C2_amended_single_resolution
      [H3Event.dataReceived 0 [1] true, H3Event.dataReceived 0 [2] true]
      (Client.registerGet Client.init 0) 0 "2025-01-01T00:00:00"
      [(none, H3Event.dataReceived 0 [1] true), (none, H3Event.dataReceived 0 [2] true)]
  exact ⟨h.1, by decide, h.2 (by decide)⟩

/-- C4 counterexample: when the end-of-stream marker arrives on a
HeadersReceived event, the registered waiter is neither resolved nor
removed — it stays pending in the table — refuting the claim that an
ended-making merge resolves a still-registered waiter regardless of which
event kind carries the marker. -/
theorem C4_counterexample :
    (Client.run [H3Event.headersReceived 0 [(":status", "200")] true]
        (Client.registerGet Client.init 0)).request_waiter 0 =
      some { done := false, result := none } := by
  decide

/-- C4 amended: the waiter of a stream is resolved only when the
end-of-stream marker arrives on a DataReceived event; a still-pending
waiter is then resolved with the current entry (headers and accumulated
body, with the payload of the resolving event appended), and the waiter
entry stays in the table rather than being removed. A HeadersReceived
event carrying end-of-stream leaves the waiter untouched. -/
theorem C4_amended_resolution (st : ClientState) (sid : Nat) (d : List Nat)
    (hs : List (String × String)) (w : Waiter)
    (hw : st.request_waiter sid = some w) (hd : w.done = false) :
    (Client.quic_event_received st (H3Event.dataReceived sid d true)).request_waiter sid =
      some { done := true,
             result := some { (st.request_events sid).getD { headers := none, data := [] } with
               data := ((st.request_events sid).getD { headers := none, data := [] }).data ++ d } }
    ∧ (Client.quic_event_received st (H3Event.headersReceived sid hs true)).request_waiter sid =
        some w := by
  constructor
  · simp [Client.quic_event_received, hw, hd, upd]
  · exact hw

/-- Witness for C4 amended at a freshly registered stream 0. -/
theorem C4_amended_resolution_witness :
    (Client.quic_event_received (Client.registerGet Client.init 0)
        (H3Event.dataReceived 0 [104] true)).request_waiter 0 =
      some { done := true, result := some { headers := none, data := [104] } }
    ∧ (Client.quic_event_received (Client.registerGet Client.init 0)
        (H3Event.headersReceived 0 [(":status", "200")] true)).request_waiter 0 =
      some { done := false, result := none } := by
  have h := C4_amended_resolution (Client.registerGet Client.init 0) 0 [104]
      [(":status", "200")] { done := false, result := none } rfl rfl
  exact h

/-- C5 counterexample: after a waiter is resolved its entry is still in
the correlator table (set_result does not delete the dict entry), and
after a timeout cancellation the entry of the timed-out stream also
remains; this refutes the claim that resolved or timed-out waiters are
removed from the stream-id-to-waiter table. -/
theorem C5_counterexample :
    (Client.run [H3Event.dataReceived 0 [104] true]
        (Client.registerGet Client.init 0)).request_waiter 0 =
      some { done := true, result := some { headers := none, data := [104] } }
    ∧ (Client.timeoutCancel (Client.registerGet Client.init 1) 1).request_waiter 1 =
        some { done := true, result := none } := by
  constructor <;> decide

/-- C5 amended: a registered waiter entry is never removed from the table,
neither by event processing (resolution included) nor by the timeout
cancellation; the table therefore retains entries for completed and
timed-out requests for the connection lifetime, and duplicate resolution
is prevented by the done flag of the future rather than by removal. -/
theorem C5_amended_waiter_retained (events : List H3Event) (st : ClientState) (sid : Nat)
    (h : (st.request_waiter sid).isSome = true) :
    ((Client.run events st).request_waiter sid).isSome = true
    ∧ ((Client.timeoutCancel st sid).request_waiter sid).isSome = true := by
  refine ⟨waiter_isSome_run events st sid h, ?_⟩
  unfold Client.timeoutCancel
  cases hw : st.request_waiter sid with
  | none => rw [hw] at h; exact absurd h (by simp)
  | some w => cases hd : w.done <;> simp [hw, hd, upd]

/-- Witness for C5 amended: the waiter of stream 0 survives a resolving
event sequence and a timeout cancellation. -/
theorem C5_amended_waiter_retained_witness :
    ((Client.registerGet Client.init 0).request_waiter 0).isSome = true
    ∧ ((Client.run [H3Event.dataReceived 0 [1] true]
        (Client.registerGet Client.init 0)).request_waiter 0).isSome = true
    ∧ ((Client.timeoutCancel (Client.registerGet Client.init 0) 0).request_waiter 0).isSome
        = true := by
  have h := C5_amended_waiter_retained [H3Event.dataReceived 0 [1] true]
      (Client.registerGet Client.init 0) 0 rfl
  exact ⟨rfl, h.1, h.2⟩

/-- C6 counterexample: a completed request whose header set lacks :path is
answered on its stream with status 200 (headers.get defaults the missing
:path to "/", which routes to the homepage), not with a 4xx status as the
claim demands; 200 does not lie in the 4xx range. -/
theorem C6_counterexample :
    Server.handle_request "2025-01-01T00:00:00" none 0 [(":method", "GET")] =
      Server.send_response 0 200 Server.get_homepage "text/html"
    ∧ Server.sentStatus
        (Server.handle_request "2025-01-01T00:00:00" none 0 [(":method", "GET")]) = some "200"
    ∧ ¬ (400 ≤ 200 ∧ 200 < 500) := by
  refine ⟨rfl, rfl, by omega⟩

theorem dictGet_default_of_absent (hdrs : List (String × String)) (key dft : String)
    (h : ∀ p ∈ hdrs, p.1 ≠ key) : dictGet hdrs key dft = dft := by
  unfold dictGet
  have hf : hdrs.reverse.find? (fun p => p.1 == key) = none := by
    rw [List.find?_eq_none]
    intro x hx
    simpa using h x (List.mem_reverse.mp hx)
  rw [hf]

/-- C6 amended: for every completed request whose header set lacks a :path
pseudo-header the responder still answers on that stream without crashing
the connection, but with status 200 and the homepage body — the missing
:path defaults to "/" — rather than with a 4xx status. -/
theorem C6_amended_missing_path (ts : String) (sid : Nat) (hdrs : List (String × String))
    (h : ∀ p ∈ hdrs, p.1 ≠ ":path") :
    Server.handle_request ts none sid hdrs =
      Server.send_response sid 200 Server.get_homepage "text/html" := by
  have hp : dictGet hdrs ":path" "/" = "/" := dictGet_default_of_absent hdrs ":path" "/" h
  simp [Server.handle_request, hp]

/-- Witness for C6 amended at a header set holding only :method. -/
theorem C6_amended_missing_path_witness :
    Server.handle_request "2025-01-01T00:00:01" none 7 [(":method", "GET")] =
      Server.send_response 7 200 Server.get_homepage "text/html" :=
  C6_amended_missing_path "2025-01-01T00:00:01" 7 [(":method", "GET")] (by decide)

/-- C7: an exception raised inside the request-handling try block is
caught at the dispatch boundary and converted into a 500 response whose
JSON body carries an error field and the diagnostic message; dispatch
always returns this response rather than propagating, and the connection
event processing continues across the failing event, so the surrounding
trace is processed exactly as if each event were handled independently. -/
theorem C7_handler_exception_contained (ts e : String) (sid : Nat)
    (hdrs : List (String × String)) (t1 t2 : List (Option String × H3Event))
    (p : Option String × H3Event) :
    Server.handle_request ts (some e) sid hdrs =
      Server.send_json_response sid 500 (Server.errorBody e)
    ∧ Json.lookup (Server.errorBody e) "error" = some (Json.str "Internal Server Error")
    ∧ Json.lookup (Server.errorBody e) "message" = some (Json.str e)
    ∧ Server.sentStatus (Server.handle_request ts (some e) sid hdrs) = some "500"
    ∧ Server.run ts (t1 ++ p :: t2) =
        Server.run ts t1 ++ Server.processEvent ts p ++ Server.run ts t2 := by
  refine ⟨rfl, rfl, rfl, rfl, ?_⟩
  rw [show p :: t2 = [p] ++ t2 from rfl, run_append, run_append]
  simp [Server.run]

theorem waiter_unchanged_step (st : ClientState) (e : H3Event) (sid : Nat)
    (h : Client.endsStreamFor sid e = false) :
    (Client.quic_event_received st e).request_waiter sid = st.request_waiter sid := by
  cases e with
  | headersReceived s hs se => rfl
  | dataReceived s d se =>
      cases se with
      | false => rfl
      | true =>
          have hs : (s == sid) = false := by
            simpa [Client.endsStreamFor] using h
          have hne : sid ≠ s := fun hh => by simp [hh] at hs
          simp only [Client.quic_event_received]
          cases hwt : st.request_waiter s with
          | none => simp [hwt]
          | some w =>
              cases hd : w.done with
              | true => simp [hwt, hd]
              | false => simp [hwt, hd, upd, hne]

theorem waiter_pending_run (events : List H3Event) (st : ClientState) (sid : Nat)
    (hw : st.request_waiter sid = some { done := false, result := none })
    (hnoend : ∀ e ∈ events, Client.endsStreamFor sid e = false) :
    (Client.run events st).request_waiter sid = some { done := false, result := none } := by
  induction events generalizing st with
  | nil => exact hw
  | cons e rest ih =>
      rw [run_cons]
      refine ih _ ?_ (fun x hx => hnoend x (List.mem_cons_of_mem _ hx))
      rw [waiter_unchanged_step st e sid (hnoend e (List.mem_cons_self _ _))]
      exact hw

theorem timeoutCancel_other (st : ClientState) (sid sid' : Nat) (h : sid' ≠ sid) :
    (Client.timeoutCancel st sid).request_waiter sid' = st.request_waiter sid' := by
  unfold Client.timeoutCancel
  cases hw : st.request_waiter sid with
  | none => rfl
  | some w => cases hd : w.done <;> simp [hw, hd, upd, h]

/-- C8: a request registered by get whose stream receives no end-of-stream
signal among the events processed during the five-second budget leaves its
waiter pending, so the awaited wait_for ends in RequestTimeout rather than
a value; the cancellation performed by the timeout touches only the
awaited stream id and leaves the waiter of every other stream exactly as
it was. -/
theorem C8_timeout (events : List H3Event) (st : ClientState) (sid : Nat)
    (hnoend : ∀ e ∈ events, Client.endsStreamFor sid e = false) :
    Client.awaitOutcome (Client.run events (Client.registerGet st sid)) sid =
      Client.GetResult.requestTimeout
    ∧ ∀ sid', sid' ≠ sid →
        (Client.timeoutCancel (Client.run events (Client.registerGet st sid))
            sid).request_waiter sid' =
          (Client.run events (Client.registerGet st sid)).request_waiter sid' := by
  have hreg : (Client.registerGet st sid).request_waiter sid =
      some { done := false, result := none } := by
    simp [Client.registerGet, upd]
  have hpend := waiter_pending_run events (Client.registerGet st sid) sid hreg hnoend
  constructor
  · simp [Client.awaitOutcome, hpend]
  · intro sid' hne
    exact timeoutCancel_other _ sid sid' hne

/-- Witness for C8: a window containing a non-final fragment for stream 0
and a final response for stream 1 times stream 0 out while stream 1 keeps
its waiter entry unchanged by the cancellation. -/
theorem C8_timeout_witness :
    Client.awaitOutcome (Client.run
        [H3Event.dataReceived 0 [97] false, H3Event.headersReceived 1 [] true]
        (Client.registerGet Client.init 0)) 0 = Client.GetResult.requestTimeout
    ∧ (Client.timeoutCancel (Client.run
          [H3Event.dataReceived 0 [97] false, H3Event.headersReceived 1 [] true]
          (Client.registerGet Client.init 0)) 0).request_waiter 1 =
        (Client.run [H3Event.dataReceived 0 [97] false, H3Event.headersReceived 1 [] true]
          (Client.registerGet Client.init 0)).request_waiter 1 := by
  have h := C8_timeout [H3Event.dataReceived 0 [97] false, H3Event.headersReceived 1 [] true]
      Client.init 0 (by decide)
  exact ⟨h.1, h.2 1 (by decide)⟩

/-- C9: every completed request with method GET and path exactly
/api/status is answered with status 200, content-type application/json,
and the serialized status JSON object, whose status field is the string
"healthy". -/
theorem C9_api_status (ts : String) (sid : Nat) (hdrs : List (String × String))
    (hm : dictGet hdrs ":method" "GET" = "GET")
    (hp : dictGet hdrs ":path" "/" = "/api/status") :
    Server.handle_request ts none sid hdrs =
      Server.send_json_response sid 200 (Server.statusBody ts)
    ∧ Server.sentStatus (Server.handle_request ts none sid hdrs) = some "200"
    ∧ Server.sentContentType (Server.handle_request ts none sid hdrs) = some "application/json"
    ∧ Json.lookup (Server.statusBody ts) "status" = some (Json.str "healthy") := by
  have h1 : Server.handle_request ts none sid hdrs =
      Server.send_json_response sid 200 (Server.statusBody ts) := by
    simp [Server.handle_request, hp]
  refine ⟨h1, ?_, ?_, rfl⟩
  · rw [h1]; rfl
  · rw [h1]; rfl

/-- Witness for C9 at a GET request for /api/status on stream 0. -/
theorem C9_api_status_witness :
    dictGet [(":method", "GET"), (":path", "/api/status")] ":method" "GET" = "GET"
    ∧ dictGet [(":method", "GET"), (":path", "/api/status")] ":path" "/" = "/api/status"
    ∧ Server.handle_request "2025-01-01T00:00:00" none 0
        [(":method", "GET"), (":path", "/api/status")] =
      Server.send_json_response 0 200 (Server.statusBody "2025-01-01T00:00:00")
    ∧ Json.lookup (Server.statusBody "2025-01-01T00:00:00") "status" =
        some (Json.str "healthy") := by
  have h := C9_api_status "2025-01-01T00:00:00" 0
      [(":method", "GET"), (":path", "/api/status")] rfl rfl
  exact ⟨rfl, rfl, h.1, h.2.2.2⟩

/-- C10: the server dispatches a response at the moment each
HeadersReceived event is processed, whatever the value of its
stream_ended flag; every DataReceived event is dropped without being
recorded and contributes no frame, and deleting any DataReceived event
from a trace leaves the server output unchanged — responses depend only
on received headers, never on request body bytes. -/
theorem C10_dispatch_on_headers_only (ts : String) (exn exn' : Option String) (sid : Nat)
    (hs : List (String × String)) (se : Bool) (d : List Nat) (de : Bool)
    (t t1 t2 : List (Option String × H3Event)) :
    Server.processEvent ts (exn, H3Event.dataReceived sid d de) = []
    ∧ Server.run ts (t ++ [(exn', H3Event.headersReceived sid hs se)]) =
        Server.run ts t ++ Server.handle_request ts exn' sid hs
    ∧ Server.run ts (t1 ++ (exn, H3Event.dataReceived sid d de) :: t2) =
        Server.run ts (t1 ++ t2) := by
  refine ⟨rfl, ?_, ?_⟩
  · rw [run_append]
    simp [Server.run, Server.processEvent]
  · rw [show (exn, H3Event.dataReceived sid d de) :: t2 =
        [(exn, H3Event.dataReceived sid d de)] ++ t2 from rfl,
      run_append, run_append, run_append]
    simp [Server.run, Server.processEvent]

set_option maxRecDepth 100000 in
/-- C1: the content-length header emitted by send_response is computed as
str on the length of the Python str body, its code-point count, while the
bytes put on the stream are the UTF-8 encoding of the body; on the
homepage body (served for GET /), which contains three multi-byte
characters, the code-point count is 1144 but 1152 bytes are transmitted,
so the emitted header does not equal the byte length of the serialized
body as transmitted and the claim fails on the code. -/
theorem C1_content_length_mismatch :
    Server.sentContentLength (Server.send_response 0 200 Server.get_homepage "text/html") =
      some (toString Server.get_homepage.length)
    ∧ Server.sentBodyBytes (Server.send_response 0 200 Server.get_homepage "text/html") =
        encodeUtf8 Server.get_homepage
    ∧ Server.get_homepage.length = 1144
    ∧ (encodeUtf8 Server.get_homepage).length = 1152
    ∧ Server.get_homepage.length ≠ (encodeUtf8 Server.get_homepage).length := by
  refine ⟨rfl, ?_, by rfl, by decide, by decide⟩
  simp [Server.send_response, Server.sentBodyBytes]

end Http3
